import Mathlib

/-!
Shallow embedding of the DevSandbox core: the in-memory sandbox store
(environments, API keys, webhooks, logs) with its cascading-delete rules,
and the mock request simulator.

Modelling conventions:
* ISO-8601 timestamp strings are modelled by their parsed epoch-millisecond
  value (a `Nat`): the source only ever compares timestamps through
  `new Date(t).getTime()`.
* `Math.random()`-driven choices are modelled by an explicit stream
  `g : Nat → Nat` of draws; a draw used to pick one of `n` alternatives is
  reduced modulo `n` (the image of `floor(random * n)`), and
  `getRandomInt min max` becomes `min + r % (max - min + 1)`, which has the
  same inclusive range and the same uniform fibre structure.
* Random identifier strings (`generateUUID`, `getRandomDate`) are modelled as
  the decimal rendering of the corresponding draw.
* `Record<string, any>` payloads whose content is never inspected are
  modelled by `Option` fields recording presence, or by simple field lists.
-/

namespace DevSandbox

/-- `getRandomInt(min, max)` from the source: uniform inclusive range. -/
def getRandomInt (lo hi r : Nat) : Nat := lo + r % (hi - lo + 1)

/-- `getRandomItem(arr)` from the source: uniform pick from a list. -/
def getRandomItem [Inhabited α] (arr : List α) (r : Nat) : α :=
  arr.getD (r % arr.length) default

/-- `generateUUID()` from the source, modelled as the decimal rendering of a
random draw. -/
def generateUUID (r : Nat) : String := toString r

/-- `getRandomDate(start, end)` from the source, modelled as the decimal
rendering of a random draw. -/
def getRandomDate (r : Nat) : String := toString r

structure EnvConfig where
  rateLimit : Nat
  dataRetentionDays : Nat
  loggingEnabled : Bool
  publicAccess : Bool
deriving DecidableEq, Repr, Inhabited

inductive EnvStatus
  | Active | Stopped | Archived | Provisioning
deriving DecidableEq, Repr, Inhabited

structure SandboxEnvironment where
  id : String
  name : String
  description : String
  status : EnvStatus
  apiKeyCount : Nat
  webhookCount : Nat
  createdAt : String
  lastActivity : String
  ownerId : String
  region : String
  config : EnvConfig
deriving DecidableEq, Repr, Inhabited

inductive KeyStatus
  | Active | Revoked | Expired
deriving DecidableEq, Repr, Inhabited

structure APIKey where
  id : String
  environmentId : String
  name : String
  key : String
  status : KeyStatus
  permissions : List String
  createdAt : String
  expiresAt : Option String
  lastUsed : String
  rateLimitOverride : Option Nat
deriving DecidableEq, Repr, Inhabited

inductive HookStatus
  | Active | Paused | Failed
deriving DecidableEq, Repr, Inhabited

structure WebhookConfig where
  id : String
  environmentId : String
  name : String
  url : String
  secret : String
  events : List String
  status : HookStatus
  createdAt : String
  lastTriggered : String
  retriesEnabled : Bool
  maxRetries : Nat
deriving DecidableEq, Repr, Inhabited

inductive LogLevel
  | INFO | WARN | ERROR | DEBUG
deriving DecidableEq, Repr, Inhabited

inductive LogSource
  | API | Webhook | System | Auth
deriving DecidableEq, Repr, Inhabited

structure LogEntry where
  id : String
  environmentId : String
  /-- ISO timestamp string, modelled by its epoch-millisecond value. -/
  timestamp : Nat
  level : LogLevel
  source : LogSource
  message : String
  /-- `details?: Record<string, any>`: presence of the structured payload. -/
  details : Option String
  requestId : Option String
  statusCode : Option Nat
  latencyMs : Option Nat
deriving DecidableEq, Repr, Inhabited

end DevSandbox

namespace DevSandbox

/-- The message tables of `generateMockLogs`, keyed by source category. -/
def messagesFor : LogSource → List String
  | .API => ["Request received", "Data processed", "Resource not found",
             "Authentication failed", "Rate limit hit"]
  | .Webhook => ["Delivery successful", "Delivery failed", "Retrying delivery",
                 "Webhook configured"]
  | .System => ["Environment started", "Environment stopped",
                "Configuration updated", "Provisioning complete"]
  | .Auth => ["Login attempt", "API key validated", "Permission denied"]

/-- One loop iteration of `generateMockLogs`: entry `i`, drawing from the
stream `g` (ten draws per entry, at indices `10*i ..`). `now` is
`Date.now()` in epoch milliseconds. -/
def mockLogEntry (envId : String) (now : Nat) (g : Nat → Nat) (i : Nat) :
    LogEntry :=
  let d : Nat → Nat := fun j => g (10 * i + j)
  let source := getRandomItem [LogSource.API, .Webhook, .System, .Auth] (d 0)
  let level :=
    getRandomItem [LogLevel.INFO, .INFO, .INFO, .WARN, .ERROR, .DEBUG] (d 1)
  let timestamp :=
    now - (getRandomInt 0 30 (d 2) * 86400000 + getRandomInt 0 23 (d 3) * 3600000
           + getRandomInt 0 59 (d 4) * 60000)
  let requestId :=
    if source = LogSource.API then some ((generateUUID (d 5)).take 10) else none
  let statusCode :=
    if source = LogSource.API ∧ level ≠ LogLevel.DEBUG then
      some (getRandomItem [200, 201, 204, 400, 401, 403, 404, 429, 500] (d 6))
    else none
  let latencyMs :=
    match statusCode with
    | some c => if c < 500 then some (getRandomInt 10 1500 (d 7)) else none
    | none => none
  { id := generateUUID (d 8)
    environmentId := envId
    timestamp := timestamp
    level := level
    source := source
    message := getRandomItem (messagesFor source) (d 9)
    details := if level = LogLevel.ERROR then some "Timeout" else none
    requestId := requestId
    statusCode := statusCode
    latencyMs := latencyMs }

/-- Sort key of `logs.sort((a, b) => getTime(b) - getTime(a))`: newest first. -/
def newerFirst (a b : LogEntry) : Prop := b.timestamp ≤ a.timestamp

instance : DecidableRel newerFirst := fun a b => Nat.decLe _ _

instance : IsTotal LogEntry newerFirst := ⟨fun a b => Nat.le_total _ _⟩

instance : IsTrans LogEntry newerFirst :=
  ⟨fun _ _ _ hab hbc => Nat.le_trans hbc hab⟩

/-- `generateMockLogs(envId, count)`: synthesize `count` entries for `envId`
and sort them newest-first. -/
def generateMockLogs (envId : String) (count : Nat) (now : Nat)
    (g : Nat → Nat) : List LogEntry :=
  List.insertionSort newerFirst
    ((List.range count).map (fun i => mockLogEntry envId now g i))

/-- The store held by the `SandboxProvider`. -/
structure SandboxState where
  environments : List SandboxEnvironment
  selectedEnvironmentId : Option String
  apiKeys : List APIKey
  webhooks : List WebhookConfig
  logs : List LogEntry
deriving DecidableEq, Repr, Inhabited

/-- `addEnvironment`: `setEnvironments(prev => [...prev, env])`. -/
def addEnvironment (s : SandboxState) (env : SandboxEnvironment) :
    SandboxState :=
  { s with environments := s.environments ++ [env] }

/-- `updateEnvironment`: replace-by-id. -/
def updateEnvironment (s : SandboxState) (u : SandboxEnvironment) :
    SandboxState :=
  { s with environments :=
      s.environments.map (fun env => if env.id = u.id then u else env) }

/-- `deleteEnvironment(id)`: filters the environment out, cascades to
API keys, webhooks and logs, and clears the selected pointer if it pointed
at `id`. -/
def deleteEnvironment (s : SandboxState) (id : String) : SandboxState :=
  { environments := s.environments.filter (fun env => env.id ≠ id)
    apiKeys := s.apiKeys.filter (fun key => key.environmentId ≠ id)
    webhooks := s.webhooks.filter (fun webhook => webhook.environmentId ≠ id)
    logs := s.logs.filter (fun log => log.environmentId ≠ id)
    selectedEnvironmentId :=
      if s.selectedEnvironmentId = some id then none
      else s.selectedEnvironmentId }

/-- `addApiKey`: append. -/
def addApiKey (s : SandboxState) (key : APIKey) : SandboxState :=
  { s with apiKeys := s.apiKeys ++ [key] }

/-- `updateApiKey`: replace-by-id. -/
def updateApiKey (s : SandboxState) (u : APIKey) : SandboxState :=
  { s with apiKeys := s.apiKeys.map (fun key => if key.id = u.id then u else key) }

/-- `deleteApiKey(id)`. -/
def deleteApiKey (s : SandboxState) (id : String) : SandboxState :=
  { s with apiKeys := s.apiKeys.filter (fun key => key.id ≠ id) }

/-- `addWebhook`: append. -/
def addWebhook (s : SandboxState) (webhook : WebhookConfig) : SandboxState :=
  { s with webhooks := s.webhooks ++ [webhook] }

/-- `updateWebhook`: replace-by-id. -/
def updateWebhook (s : SandboxState) (u : WebhookConfig) : SandboxState :=
  { s with webhooks :=
      s.webhooks.map (fun webhook => if webhook.id = u.id then u else webhook) }

/-- `deleteWebhook(id)`. -/
def deleteWebhook (s : SandboxState) (id : String) : SandboxState :=
  { s with webhooks := s.webhooks.filter (fun webhook => webhook.id ≠ id) }

/-- `addLog`: `setLogs(prev => [log, ...prev])` — prepend. -/
def addLog (s : SandboxState) (log : LogEntry) : SandboxState :=
  { s with logs := log :: s.logs }

/-- `refreshLogs(envId)`: synthesize a fresh batch of `getRandomInt(5, 20)`
entries and replace the environment's logs with it, keeping every other
environment's entries. Draw `g 0` sizes the batch, the remaining stream
feeds the generator. -/
def refreshLogs (s : SandboxState) (envId : String) (now : Nat)
    (g : Nat → Nat) : SandboxState :=
  let newLogs := generateMockLogs envId (getRandomInt 5 20 (g 0)) now
    (fun j => g (j + 1))
  { s with logs := newLogs ++ s.logs.filter (fun log => log.environmentId ≠ envId) }

/-- `setSelectedEnvironmentId`. -/
def setSelectedEnvironmentId (s : SandboxState) (id : Option String) :
    SandboxState :=
  { s with selectedEnvironmentId := id }

/-- The seven fixed `MOCK_ENVIRONMENTS` records. -/
def MOCK_ENVIRONMENTS : List SandboxEnvironment :=
  [{ id := "env-1", name := "Staging-WebApp-Test",
     description := "Environment for testing web application features before production deployment.",
     status := .Active, apiKeyCount := 5, webhookCount := 3,
     createdAt := "2024-07-20", lastActivity := "2024-08-01T14:30:00Z",
     ownerId := "user-alpha", region := "us-east-1",
     config := { rateLimit := 500, dataRetentionDays := 90,
                 loggingEnabled := true, publicAccess := false } },
   { id := "env-2", name := "Mobile-iOS-Integration",
     description := "Dedicated environment for mobile iOS app backend integrations and QA.",
     status := .Active, apiKeyCount := 3, webhookCount := 2,
     createdAt := "2024-07-18", lastActivity := "2024-08-01T10:15:00Z",
     ownerId := "user-beta", region := "eu-west-1",
     config := { rateLimit := 1000, dataRetentionDays := 180,
                 loggingEnabled := true, publicAccess := false } },
   { id := "env-3", name := "Archived-Q2-Tests",
     description := "Historical environment for Q2 project testing, now stopped.",
     status := .Stopped, apiKeyCount := 1, webhookCount := 0,
     createdAt := "2024-06-30", lastActivity := "2024-07-05T09:00:00Z",
     ownerId := "user-gamma", region := "ap-southeast-2",
     config := { rateLimit := 100, dataRetentionDays := 30,
                 loggingEnabled := false, publicAccess := true } },
   { id := "env-4", name := "Dev-Frontend-Playground",
     description := "Frontend development sandbox for rapid prototyping.",
     status := .Active, apiKeyCount := 2, webhookCount := 1,
     createdAt := "2024-07-25", lastActivity := "2024-08-01T16:00:00Z",
     ownerId := "user-alpha", region := "us-west-2",
     config := { rateLimit := 750, dataRetentionDays := 90,
                 loggingEnabled := true, publicAccess := true } },
   { id := "env-5", name := "Internal-Tooling-API",
     description := "Sandbox for developing internal API services.",
     status := .Provisioning, apiKeyCount := 0, webhookCount := 0,
     createdAt := "2024-07-29", lastActivity := "2024-07-29T11:00:00Z",
     ownerId := "user-delta", region := "us-east-1",
     config := { rateLimit := 200, dataRetentionDays := 60,
                 loggingEnabled := true, publicAccess := false } },
   { id := "env-6", name := "POC-Experiment",
     description := "Proof-of-concept environment for a new feature idea.",
     status := .Active, apiKeyCount := 1, webhookCount := 0,
     createdAt := "2024-07-10", lastActivity := "2024-07-28T18:00:00Z",
     ownerId := "user-epsilon", region := "eu-central-1",
     config := { rateLimit := 300, dataRetentionDays := 30,
                 loggingEnabled := true, publicAccess := true } },
   { id := "env-7", name := "Analytics-Reporting",
     description := "Environment for integrating with third-party analytics platforms.",
     status := .Stopped, apiKeyCount := 0, webhookCount := 0,
     createdAt := "2024-06-01", lastActivity := "2024-06-15T12:00:00Z",
     ownerId := "user-zeta", region := "us-east-1",
     config := { rateLimit := 100, dataRetentionDays := 180,
                 loggingEnabled := false, publicAccess := false } }]

/-- One synthetic `MOCK_API_KEYS` record for environment `env`, index `i`,
drawing from stream `d`. -/
def mockApiKey (env : SandboxEnvironment) (i : Nat) (d : Nat → Nat) : APIKey :=
  { id := generateUUID (d 0)
    environmentId := env.id
    name := ((env.name.splitOn "-").headD "") ++ " Key " ++ toString (i + 1)
    key := "sk_test_" ++ (generateUUID (d 1)).take 8 ++ "..."
           ++ (generateUUID (d 2)).take 4
    status := getRandomItem [KeyStatus.Active, .Active, .Active, .Revoked,
                             .Expired] (d 3)
    permissions := getRandomItem [["read:data"], ["read:data", "write:data"],
      ["read:data", "write:data", "manage:webhooks"], ["admin"]] (d 4)
    createdAt := getRandomDate (d 5)
    expiresAt := if d 6 % 10 > 7 then some (getRandomDate (d 7)) else none
    lastUsed := getRandomDate (d 8)
    rateLimitOverride :=
      if d 9 % 10 > 8 then some (getRandomInt 50 200 (d 10)) else none }

/-- `MOCK_API_KEYS`: `apiKeyCount` synthetic keys per mock environment. -/
def MOCK_API_KEYS (g : Nat → Nat) : List APIKey :=
  (MOCK_ENVIRONMENTS.enum.map (fun p =>
    (List.range p.2.apiKeyCount).map (fun i =>
      mockApiKey p.2 i (fun j => g (1000 * p.1 + 20 * i + j))))).flatten

/-- One synthetic `MOCK_WEBHOOKS` record for environment `env`, index `i`. -/
def mockWebhook (env : SandboxEnvironment) (i : Nat) (d : Nat → Nat) :
    WebhookConfig :=
  { id := generateUUID (d 0)
    environmentId := env.id
    name := ((env.name.splitOn "-").headD "") ++ " Webhook " ++ toString (i + 1)
    url := "https://example.com/webhook/listener/" ++ (generateUUID (d 1)).take 6
    secret := generateUUID (d 2)
    events := getRandomItem [["data.created"], ["data.updated", "user.deleted"],
      ["environment.status_change", "api_key.revoked"]] (d 3)
    status := getRandomItem [HookStatus.Active, .Active, .Active, .Paused,
                             .Failed] (d 4)
    createdAt := getRandomDate (d 5)
    lastTriggered := if d 6 % 10 > 1 then getRandomDate (d 7) else "Never"
    retriesEnabled := d 8 % 10 > 2
    maxRetries := getRandomInt 3 10 (d 9) }

/-- `MOCK_WEBHOOKS`: `webhookCount` synthetic webhooks per mock environment. -/
def MOCK_WEBHOOKS (g : Nat → Nat) : List WebhookConfig :=
  (MOCK_ENVIRONMENTS.enum.map (fun p =>
    (List.range p.2.webhookCount).map (fun i =>
      mockWebhook p.2 i (fun j => g (1000 * p.1 + 20 * i + j))))).flatten

/-- The initial log collection: for each mock environment, a batch of
`getRandomInt(50, 150)` synthesized entries. Each environment's batch draws
from its own region of the stream. -/
def initLogs (now : Nat) (g : Nat → Nat) : List LogEntry :=
  (MOCK_ENVIRONMENTS.enum.map (fun p =>
    generateMockLogs p.2.id (getRandomInt 50 150 (g (10000 * p.1))) now
      (fun j => g (10000 * p.1 + 1 + j)))).flatten

/-- The `SandboxProvider`'s initial state: mock collections, no selected
environment. -/
def initState (now : Nat) (g : Nat → Nat) : SandboxState :=
  { environments := MOCK_ENVIRONMENTS
    selectedEnvironmentId := none
    apiKeys := MOCK_API_KEYS g
    webhooks := MOCK_WEBHOOKS g
    logs := initLogs now g }

inductive HttpMethod
  | GET | POST | PUT | DELETE | PATCH
deriving DecidableEq, Repr, Inhabited

/-- Rendering used when a method name is spliced into a response body. -/
def HttpMethod.render : HttpMethod → String
  | .GET => "GET"
  | .POST => "POST"
  | .PUT => "PUT"
  | .DELETE => "DELETE"
  | .PATCH => "PATCH"

/-- An entry of the static endpoint catalog. Schemas are display-only field
lists; the simulator never reads them. -/
structure APIEndpoint where
  id : String
  method : HttpMethod
  path : String
  description : String
  requestSchema : Option (List (String × String)) := none
  responseSchema : Option (List (String × String)) := none
  tags : List String
  isAuthenticated : Bool
deriving DecidableEq, Repr, Inhabited

/-- The fixed `MOCK_API_ENDPOINTS` catalog. -/
def MOCK_API_ENDPOINTS : List APIEndpoint :=
  [{ id := "ep-1", method := .GET, path := "/users/{id}",
     description := "Retrieve user details", tags := ["User", "Read"],
     isAuthenticated := true,
     responseSchema := some [("id", "string"), ("name", "string"),
                             ("email", "string")] },
   { id := "ep-2", method := .POST, path := "/users",
     description := "Create a new user", tags := ["User", "Write"],
     isAuthenticated := true,
     requestSchema := some [("name", "string"), ("email", "string")],
     responseSchema := some [("id", "string"), ("name", "string")] },
   { id := "ep-3", method := .GET, path := "/products",
     description := "List all products", tags := ["Product", "Read"],
     isAuthenticated := false,
     responseSchema := some [("items", "array")] },
   { id := "ep-4", method := .DELETE, path := "/products/{id}",
     description := "Delete a product", tags := ["Product", "Write"],
     isAuthenticated := true },
   { id := "ep-5", method := .POST, path := "/orders",
     description := "Place a new order", tags := ["Order", "Write"],
     isAuthenticated := true,
     requestSchema := some [("userId", "string"), ("productId", "string"),
                            ("quantity", "number")] },
   { id := "ep-6", method := .GET, path := "/status",
     description := "Check API health", tags := ["System"],
     isAuthenticated := false,
     responseSchema := some [("status", "string"), ("uptime", "string")] }]

/-- A generated list item of a GET-list success body: id, name, and the
`getRandomFloat(10, 1000)` value (floats modelled as integer draws in the
same range). -/
structure MockItem where
  itemId : String
  itemName : String
  value : Nat
deriving DecidableEq, Repr, Inhabited

/-- The JSON body set by `handleSendRequest`, one constructor per shape the
source builds. `jsonError` is the `{message, details}` shape shared by the
404/405/401/403 branches. -/
inductive SimBody
  | jsonError (message : String) (details : String)
  | singleItem (itemId itemName itemStatus itemData : String)
  | itemList (items : List MockItem)
  | createdBody (message itemId itemStatus : String)
  | updatedBody (message : String)
  | deletedBody (message : String)
deriving DecidableEq, Repr, Inhabited

/-- The observable outcome of one simulated request: the status code, the
response body, the error banner (`setError`), and the attached latency
(`setResponseTime`; the source records the elapsed wall time of the
`setTimeout(getRandomInt(100, 1500))` suspension, modelled by the sampled
delay itself). -/
structure SimOutcome where
  statusCode : Nat
  body : SimBody
  error : Option String
  responseTimeMs : Nat
deriving DecidableEq, Repr, Inhabited

/-- `path.includes(id-placeholder)`: the path contains the literal
placeholder substring. -/
def pathHasIdPlaceholder (p : String) : Bool :=
  (p.splitOn "{id}").length ≥ 2

/-- The success branch of `handleSendRequest`: body and status shaped by the
method. Draw `g 0` sizes a GET list (or names a POST id); draws `g (i+1)`
fill item values. -/
def successOutcome (method : HttpMethod) (path : String) (delay : Nat)
    (g : Nat → Nat) : SimOutcome :=
  match method with
  | .GET =>
    if pathHasIdPlaceholder path then
      { statusCode := 200,
        body := .singleItem "some-id-123" "Mock Item" "active" "example",
        error := none, responseTimeMs := delay }
    else
      { statusCode := 200,
        body := .itemList ((List.range (getRandomInt 3 10 (g 0))).map (fun i =>
          { itemId := "item-" ++ toString i
            itemName := "Generated Item " ++ toString (i + 1)
            value := getRandomInt 10 1000 (g (i + 1)) })),
        error := none, responseTimeMs := delay }
  | .POST =>
    { statusCode := 201,
      body := .createdBody "Resource created successfully" (generateUUID (g 0))
        "pending",
      error := none, responseTimeMs := delay }
  | .PUT =>
    { statusCode := 200, body := .updatedBody "Resource updated successfully",
      error := none, responseTimeMs := delay }
  | .PATCH =>
    { statusCode := 200, body := .updatedBody "Resource updated successfully",
      error := none, responseTimeMs := delay }
  | .DELETE =>
    { statusCode := 204, body := .deletedBody "Resource deleted successfully",
      error := none, responseTimeMs := delay }

/-- `handleSendRequest` of the API Request Tester, as a pure function of the
request (`method`, `path`), the store's key collection, the selected key id
(`""` models the empty/absent selection, exactly the string the component
holds), the sampled latency, and the random stream for the success body.

The branch structure and its order are the source's: catalog lookup by exact
path, method check, then — only for authenticated endpoints — key presence,
key validity, and the permission condition written with the source's
operator precedence:
`(!admin && (isWrite && !write)) || (isGet && !read)`. -/
def handleSendRequest (method : HttpMethod) (path : String)
    (apiKeys : List APIKey) (selectedAPIKeyId : String) (delay : Nat)
    (g : Nat → Nat) : SimOutcome :=
  match MOCK_API_ENDPOINTS.find? (fun ep => ep.path = path) with
  | none =>
    { statusCode := 404,
      body := .jsonError "Mock endpoint not found"
        ("Path: " ++ path ++ ", Method: " ++ method.render),
      error := some "Mock endpoint not found.", responseTimeMs := delay }
  | some mockEndpoint =>
    if method ≠ mockEndpoint.method then
      { statusCode := 405,
        body := .jsonError "Method Not Allowed"
          ("Expected " ++ mockEndpoint.method.render ++ ", got "
           ++ method.render),
        error := some "Method Not Allowed.", responseTimeMs := delay }
    else if mockEndpoint.isAuthenticated ∧ selectedAPIKeyId ≠ "" then
      match apiKeys.find? (fun k => k.id = selectedAPIKeyId) with
      | none =>
        { statusCode := 401,
          body := .jsonError "Unauthorized" "Invalid or revoked API Key",
          error := some "Unauthorized: Invalid API Key.",
          responseTimeMs := delay }
      | some usedKey =>
        if usedKey.status ≠ KeyStatus.Active then
          { statusCode := 401,
            body := .jsonError "Unauthorized" "Invalid or revoked API Key",
            error := some "Unauthorized: Invalid API Key.",
            responseTimeMs := delay }
        else if (¬ usedKey.permissions.contains "admin"
                  ∧ ((method = .POST ∨ method = .PUT ∨ method = .DELETE
                      ∨ method = .PATCH)
                     ∧ ¬ usedKey.permissions.contains "write:data"))
                ∨ (method = .GET
                   ∧ ¬ usedKey.permissions.contains "read:data") then
          { statusCode := 403,
            body := .jsonError "Forbidden"
              "API Key does not have required permissions",
            error := some "Forbidden: Insufficient permissions.",
            responseTimeMs := delay }
        else
          successOutcome method path delay g
    else if mockEndpoint.isAuthenticated ∧ selectedAPIKeyId = "" then
      { statusCode := 401,
        body := .jsonError "Unauthorized" "API Key required",
        error := some "Unauthorized: API Key required.",
        responseTimeMs := delay }
    else
      successOutcome method path delay g

/-! Concrete fixtures used by witnesses and counterexamples. -/

def envA : SandboxEnvironment :=
  { id := "env-A", name := "Alpha-Test", description := "fixture",
    status := .Active, apiKeyCount := 0, webhookCount := 0,
    createdAt := "2024-07-01", lastActivity := "2024-08-01", ownerId := "user-alpha",
    region := "us-east-1",
    config := { rateLimit := 100, dataRetentionDays := 30,
                loggingEnabled := true, publicAccess := false } }

def envB : SandboxEnvironment :=
  { envA with id := "env-B", name := "Beta-Test" }

def keyA : APIKey :=
  { id := "key-A", environmentId := "env-A", name := "Alpha Key 1",
    key := "sk_test_aaaa...bbbb", status := .Active,
    permissions := ["read:data"], createdAt := "2024-07-01", expiresAt := none,
    lastUsed := "2024-07-30", rateLimitOverride := none }

def keyB : APIKey :=
  { keyA with id := "key-B", environmentId := "env-B", name := "Beta Key 1" }

def hookA : WebhookConfig :=
  { id := "hook-A", environmentId := "env-A", name := "Alpha Webhook 1",
    url := "https://example.com/webhook/listener/aaa", secret := "s1",
    events := ["data.created"], status := .Active, createdAt := "2024-07-01",
    lastTriggered := "Never", retriesEnabled := true, maxRetries := 3 }

def hookB : WebhookConfig :=
  { hookA with id := "hook-B", environmentId := "env-B", name := "Beta Webhook 1" }

def logA : LogEntry :=
  { id := "log-A", environmentId := "env-A", timestamp := 1000,
    level := .INFO, source := .API, message := "Request received",
    details := none, requestId := some "req-A", statusCode := some 200,
    latencyMs := some 42 }

def logB : LogEntry :=
  { logA with id := "log-B", environmentId := "env-B", timestamp := 900 }

def sampleState : SandboxState :=
  { environments := [envA, envB]
    selectedEnvironmentId := some "env-A"
    apiKeys := [keyA, keyB]
    webhooks := [hookA, hookB]
    logs := [logA, logB] }

def adminOnlyKey : APIKey :=
  { id := "key-admin", environmentId := "env-A", name := "Admin Key",
    key := "sk_test_cccc...dddd", status := .Active, permissions := ["admin"],
    createdAt := "2024-07-01", expiresAt := none, lastUsed := "2024-07-30",
    rateLimitOverride := none }

/-! ## Claim theorems -/

/-- C1: for every store state and every environment present in it, deleting
that environment's id removes it from the environments collection, removes
exactly the API keys, webhooks and log entries whose `environmentId` equals
its id while keeping every entity of any other environment, and nulls the
selected-environment pointer exactly when it pointed at the deleted id. -/
theorem deleteEnvironment_cascade (s : SandboxState) (env : SandboxEnvironment)
    (henv : env ∈ s.environments) :
    env ∉ (deleteEnvironment s env.id).environments
    ∧ (∀ e : SandboxEnvironment,
        e ∈ (deleteEnvironment s env.id).environments ↔
          e ∈ s.environments ∧ e.id ≠ env.id)
    ∧ (∀ k : APIKey,
        k ∈ (deleteEnvironment s env.id).apiKeys ↔
          k ∈ s.apiKeys ∧ k.environmentId ≠ env.id)
    ∧ (∀ w : WebhookConfig,
        w ∈ (deleteEnvironment s env.id).webhooks ↔
          w ∈ s.webhooks ∧ w.environmentId ≠ env.id)
    ∧ (∀ l : LogEntry,
        l ∈ (deleteEnvironment s env.id).logs ↔
          l ∈ s.logs ∧ l.environmentId ≠ env.id)
    ∧ (deleteEnvironment s env.id).selectedEnvironmentId =
        (if s.selectedEnvironmentId = some env.id then none
         else s.selectedEnvironmentId) := by
  refine ⟨?_, ?_, ?_, ?_, ?_, rfl⟩ <;>
    simp [deleteEnvironment, List.mem_filter]

/-- Witness for C1 at a concrete two-environment store: deleting `envA`
drops exactly the `env-A` key. -/
theorem deleteEnvironment_cascade_witness :
    envA ∈ sampleState.environments
    ∧ keyA ∉ (deleteEnvironment sampleState envA.id).apiKeys :=
  ⟨by decide, fun h =>
    (((deleteEnvironment_cascade sampleState envA (by decide)).2.2.1 keyA).mp
      h).2 (by decide)⟩

/-- C10: each API-key and webhook mutator touches only its own collection —
in particular the environments list (hence every `apiKeyCount` /
`webhookCount` field) is untouched — and consequently a denormalized count
can differ from the actual number of owned keys, exhibited on a concrete
store. -/
theorem keyAndWebhookOps_frame :
    (∀ s k, (addApiKey s k).environments = s.environments
      ∧ (addApiKey s k).webhooks = s.webhooks
      ∧ (addApiKey s k).logs = s.logs
      ∧ (addApiKey s k).selectedEnvironmentId = s.selectedEnvironmentId)
    ∧ (∀ s k, (updateApiKey s k).environments = s.environments
      ∧ (updateApiKey s k).webhooks = s.webhooks
      ∧ (updateApiKey s k).logs = s.logs
      ∧ (updateApiKey s k).selectedEnvironmentId = s.selectedEnvironmentId)
    ∧ (∀ s i, (deleteApiKey s i).environments = s.environments
      ∧ (deleteApiKey s i).webhooks = s.webhooks
      ∧ (deleteApiKey s i).logs = s.logs
      ∧ (deleteApiKey s i).selectedEnvironmentId = s.selectedEnvironmentId)
    ∧ (∀ s w, (addWebhook s w).environments = s.environments
      ∧ (addWebhook s w).apiKeys = s.apiKeys
      ∧ (addWebhook s w).logs = s.logs
      ∧ (addWebhook s w).selectedEnvironmentId = s.selectedEnvironmentId)
    ∧ (∀ s w, (updateWebhook s w).environments = s.environments
      ∧ (updateWebhook s w).apiKeys = s.apiKeys
      ∧ (updateWebhook s w).logs = s.logs
      ∧ (updateWebhook s w).selectedEnvironmentId = s.selectedEnvironmentId)
    ∧ (∀ s i, (deleteWebhook s i).environments = s.environments
      ∧ (deleteWebhook s i).apiKeys = s.apiKeys
      ∧ (deleteWebhook s i).logs = s.logs
      ∧ (deleteWebhook s i).selectedEnvironmentId = s.selectedEnvironmentId)
    ∧ (envA ∈ (addApiKey sampleState adminOnlyKey).environments
      ∧ envA.apiKeyCount = 0
      ∧ ((addApiKey sampleState adminOnlyKey).apiKeys.filter
          (fun k => k.environmentId = envA.id)).length = 2) := by
  refine ⟨fun s k => ⟨rfl, rfl, rfl, rfl⟩, fun s k => ⟨rfl, rfl, rfl, rfl⟩,
    fun s i => ⟨rfl, rfl, rfl, rfl⟩, fun s w => ⟨rfl, rfl, rfl, rfl⟩,
    fun s w => ⟨rfl, rfl, rfl, rfl⟩, fun s i => ⟨rfl, rfl, rfl, rfl⟩,
    by decide⟩

/-- C2: the permission condition is evaluated with `&&` binding tighter than
`||`, so the admin bypass covers only the write-method clause. At the
concrete failing input — a GET to the authenticated `/users/{id}` endpoint
with an Active key holding exactly `admin` — the simulator answers 403, not
success; the same key does succeed on a write method. -/
theorem adminOnly_get_is_forbidden :
    (handleSendRequest .GET "/users/{id}" [adminOnlyKey] "key-admin" 100
      (fun _ => 0)) =
      { statusCode := 403,
        body := .jsonError "Forbidden"
          "API Key does not have required permissions",
        error := some "Forbidden: Insufficient permissions.",
        responseTimeMs := 100 }
    ∧ (handleSendRequest .POST "/users" [adminOnlyKey] "key-admin" 100
        (fun _ => 0)).statusCode = 201 := by
  exact ⟨by decide, by decide⟩

/-- C3: a write-method request (POST/PUT/DELETE/PATCH) to an authenticated
catalog endpoint declaring that method, carrying an Active key whose
permissions contain neither `write:data` nor `admin`, yields 403 with the
insufficient-permissions body. -/
theorem write_without_permission_forbidden
    (method : HttpMethod) (path : String) (ep : APIEndpoint)
    (apiKeys : List APIKey) (kid : String) (k : APIKey) (delay : Nat)
    (g : Nat → Nat)
    (hm : method = .POST ∨ method = .PUT ∨ method = .DELETE ∨ method = .PATCH)
    (hep : MOCK_API_ENDPOINTS.find? (fun e => e.path = path) = some ep)
    (hauth : ep.isAuthenticated = true)
    (hmeth : ep.method = method)
    (hkid : kid ≠ "")
    (hfind : apiKeys.find? (fun x => x.id = kid) = some k)
    (hact : k.status = KeyStatus.Active)
    (hw : k.permissions.contains "write:data" = false)
    (ha : k.permissions.contains "admin" = false) :
    handleSendRequest method path apiKeys kid delay g =
      { statusCode := 403,
        body := .jsonError "Forbidden"
          "API Key does not have required permissions",
        error := some "Forbidden: Insufficient permissions.",
        responseTimeMs := delay } := by
  unfold handleSendRequest
  rw [hep]
  simp [hmeth, hauth, hkid, hfind, hact, hw, ha, hm]
  intro h1 _
  exact absurd (h1 (by simpa using ha)) (by simpa using hw)

/-- Witness for C3: a POST to `/orders` with a read-only key. -/
theorem write_without_permission_forbidden_witness :
    handleSendRequest .POST "/orders" [keyA] "key-A" 250 (fun _ => 0) =
      { statusCode := 403,
        body := .jsonError "Forbidden"
          "API Key does not have required permissions",
        error := some "Forbidden: Insufficient permissions.",
        responseTimeMs := 250 } :=
  write_without_permission_forbidden .POST "/orders"
    { id := "ep-5", method := .POST, path := "/orders",
      description := "Place a new order", tags := ["Order", "Write"],
      isAuthenticated := true,
      requestSchema := some [("userId", "string"), ("productId", "string"),
                             ("quantity", "number")] }
    [keyA] "key-A" keyA 250 (fun _ => 0) (by decide) (by decide) (by decide)
    (by decide) (by decide) (by decide) (by decide) (by decide) (by decide)

/-- C4: a request whose path matches no catalog entry yields 404 with the
`Mock endpoint not found` body naming the path and method, for every method
and whatever key collection or key id is supplied. -/
theorem unknown_path_404 (method : HttpMethod) (path : String)
    (apiKeys : List APIKey) (kid : String) (delay : Nat) (g : Nat → Nat)
    (h : ∀ ep ∈ MOCK_API_ENDPOINTS, ep.path ≠ path) :
    handleSendRequest method path apiKeys kid delay g =
      { statusCode := 404,
        body := .jsonError "Mock endpoint not found"
          ("Path: " ++ path ++ ", Method: " ++ method.render),
        error := some "Mock endpoint not found.", responseTimeMs := delay } := by
  have hfind : MOCK_API_ENDPOINTS.find? (fun ep => ep.path = path) = none := by
    rw [List.find?_eq_none]
    intro ep hep
    simpa using h ep hep
  unfold handleSendRequest
  rw [hfind]

/-- Witness for C4: `/nonexistent` is not in the catalog. -/
theorem unknown_path_404_witness :
    handleSendRequest .POST "/nonexistent" [adminOnlyKey] "key-admin" 300
      (fun _ => 0) =
      { statusCode := 404,
        body := .jsonError "Mock endpoint not found"
          "Path: /nonexistent, Method: POST",
        error := some "Mock endpoint not found.", responseTimeMs := 300 } :=
  unknown_path_404 .POST "/nonexistent" [adminOnlyKey] "key-admin" 300
    (fun _ => 0) (by decide)

/-- C5: a request whose path matches a catalog entry whose declared method
differs yields 405 with the descriptive body, whatever key collection or key
id is supplied — no authentication or permission check intervenes. -/
theorem wrong_method_405 (method : HttpMethod) (path : String)
    (ep : APIEndpoint) (apiKeys : List APIKey) (kid : String) (delay : Nat)
    (g : Nat → Nat)
    (hep : MOCK_API_ENDPOINTS.find? (fun e => e.path = path) = some ep)
    (hm : method ≠ ep.method) :
    handleSendRequest method path apiKeys kid delay g =
      { statusCode := 405,
        body := .jsonError "Method Not Allowed"
          ("Expected " ++ ep.method.render ++ ", got " ++ method.render),
        error := some "Method Not Allowed.", responseTimeMs := delay } := by
  unfold handleSendRequest
  rw [hep]
  simp [hm]

/-- Witness for C5: GET on the POST-only `/orders`, with an admin key
supplied and a revoked key in the store. -/
theorem wrong_method_405_witness :
    handleSendRequest .GET "/orders" [adminOnlyKey] "key-admin" 400
      (fun _ => 0) =
      { statusCode := 405,
        body := .jsonError "Method Not Allowed" "Expected POST, got GET",
        error := some "Method Not Allowed.", responseTimeMs := 400 } :=
  wrong_method_405 .GET "/orders"
    { id := "ep-5", method := .POST, path := "/orders",
      description := "Place a new order", tags := ["Order", "Write"],
      isAuthenticated := true,
      requestSchema := some [("userId", "string"), ("productId", "string"),
                             ("quantity", "number")] }
    [adminOnlyKey] "key-admin" 400 (fun _ => 0) (by decide) (by decide)

/-- C6: on an authenticated catalog endpoint with matching method, an empty
key selection yields the 401 `API Key required` response value, and a
non-empty key id that names no Active key in the store yields the 401
`Invalid or revoked API Key` response value; both are ordinary returned
outcomes of the total simulator function. -/
theorem missing_or_invalid_key_401 (method : HttpMethod) (path : String)
    (ep : APIEndpoint) (apiKeys : List APIKey) (delay : Nat) (g : Nat → Nat)
    (hep : MOCK_API_ENDPOINTS.find? (fun e => e.path = path) = some ep)
    (hauth : ep.isAuthenticated = true)
    (hmeth : ep.method = method) :
    handleSendRequest method path apiKeys "" delay g =
      { statusCode := 401,
        body := .jsonError "Unauthorized" "API Key required",
        error := some "Unauthorized: API Key required.",
        responseTimeMs := delay }
    ∧ (∀ kid : String, kid ≠ "" →
        (∀ k ∈ apiKeys, k.id = kid → k.status ≠ KeyStatus.Active) →
        handleSendRequest method path apiKeys kid delay g =
          { statusCode := 401,
            body := .jsonError "Unauthorized" "Invalid or revoked API Key",
            error := some "Unauthorized: Invalid API Key.",
            responseTimeMs := delay }) := by
  constructor
  · unfold handleSendRequest
    rw [hep]
    simp [hmeth, hauth]
  · intro kid hkid hk
    unfold handleSendRequest
    rw [hep]
    simp only [hmeth, ne_eq, not_true_eq_false, if_false, hauth, hkid]
    cases hfind : apiKeys.find? (fun k => k.id = kid) with
    | none => simp [hkid, hfind]
    | some k =>
      have hkmem := List.mem_of_find?_eq_some hfind
      have hkeq : k.id = kid := by simpa using List.find?_some hfind
      have : k.status ≠ KeyStatus.Active := hk k hkmem hkeq
      simp [hkid, hfind, this]

/-- Witness for C6 at `GET /users/{id}` with a revoked key in the store. -/
theorem missing_or_invalid_key_401_witness :
    handleSendRequest .GET "/users/{id}"
      [{ adminOnlyKey with status := .Revoked }] "key-admin" 150 (fun _ => 0) =
      { statusCode := 401,
        body := .jsonError "Unauthorized" "Invalid or revoked API Key",
        error := some "Unauthorized: Invalid API Key.",
        responseTimeMs := 150 } :=
  (missing_or_invalid_key_401 .GET "/users/{id}"
    { id := "ep-1", method := .GET, path := "/users/{id}",
      description := "Retrieve user details", tags := ["User", "Read"],
      isAuthenticated := true,
      responseSchema := some [("id", "string"), ("name", "string"),
                              ("email", "string")] }
    [{ adminOnlyKey with status := .Revoked }] 150 (fun _ => 0)
    (by decide) (by decide) (by decide)).2 "key-admin" (by decide) (by decide)

/-- The attached latency of a success outcome is the sampled delay. -/
theorem successOutcome_responseTime (m : HttpMethod) (p : String) (d : Nat)
    (g : Nat → Nat) : (successOutcome m p d g).responseTimeMs = d := by
  cases m <;> first
    | rfl
    | (simp only [successOutcome]; split <;> rfl)

/-- C9: every outcome branch of the simulator attaches the sampled latency
(the simulated delay is the attached `responseTime`), the delay sample
`getRandomInt(100, 1500)` always lies in the inclusive range 100–1500, and
every value of that range is attained by some draw (uniformity of the
modelled sampler). -/
theorem latency_attached_and_uniform :
    (∀ (method : HttpMethod) (path : String) (apiKeys : List APIKey)
      (kid : String) (r : Nat) (g : Nat → Nat),
      (handleSendRequest method path apiKeys kid (getRandomInt 100 1500 r)
        g).responseTimeMs = getRandomInt 100 1500 r)
    ∧ (∀ r : Nat, 100 ≤ getRandomInt 100 1500 r
        ∧ getRandomInt 100 1500 r ≤ 1500)
    ∧ (∀ v : Fin 1401, ∃ r : Nat, getRandomInt 100 1500 r = 100 + (v : Nat)) := by
  refine ⟨?_, ?_, ?_⟩
  · intro method path apiKeys kid r g
    generalize getRandomInt 100 1500 r = d
    unfold handleSendRequest
    cases MOCK_API_ENDPOINTS.find? (fun ep => ep.path = path) with
    | none => rfl
    | some ep =>
      dsimp only
      split
      · rfl
      · split
        · cases apiKeys.find? (fun k => k.id = kid) with
          | none => rfl
          | some k =>
            dsimp only
            split
            · rfl
            · split
              · rfl
              · exact successOutcome_responseTime ..
        · split
          · rfl
          · exact successOutcome_responseTime ..
  · intro r
    unfold getRandomInt
    omega
  · intro v
    exact ⟨(v : Nat), by simp [getRandomInt, Nat.mod_eq_of_lt v.isLt]⟩

/-- Every entry built by one `generateMockLogs` iteration belongs to the
requested environment. -/
theorem mockLogEntry_environmentId (envId : String) (now : Nat)
    (g : Nat → Nat) (i : Nat) :
    (mockLogEntry envId now g i).environmentId = envId := rfl

/-- Every entry of a `generateMockLogs` batch belongs to the requested
environment. -/
theorem generateMockLogs_environmentId (envId : String) (count : Nat)
    (now : Nat) (g : Nat → Nat) :
    ∀ l ∈ generateMockLogs envId count now g, l.environmentId = envId := by
  intro l hl
  have hmem : l ∈ (List.range count).map (fun i => mockLogEntry envId now g i) :=
    (List.perm_insertionSort newerFirst _).mem_iff.mp hl
  obtain ⟨i, _, rfl⟩ := List.mem_map.mp hmem
  exact mockLogEntry_environmentId envId now g i

/-- C7: after `refreshLogs envId`, the entries materialized for `envId` are
exactly the freshly synthesized batch (no prior entry for that environment
survives), the entries of all other environments are exactly those present
before, and so is the filtered list of any single other environment. -/
theorem refreshLogs_replaces_batch (s : SandboxState) (envId : String)
    (now : Nat) (g : Nat → Nat) :
    ((refreshLogs s envId now g).logs.filter
        (fun l => l.environmentId = envId))
      = generateMockLogs envId (getRandomInt 5 20 (g 0)) now (fun j => g (j + 1))
    ∧ ((refreshLogs s envId now g).logs.filter
        (fun l => l.environmentId ≠ envId))
      = s.logs.filter (fun l => l.environmentId ≠ envId)
    ∧ (∀ e : String, e ≠ envId →
        ((refreshLogs s envId now g).logs.filter
            (fun l => l.environmentId = e))
          = s.logs.filter (fun l => l.environmentId = e)) := by
  have hfresh := generateMockLogs_environmentId envId
    (getRandomInt 5 20 (g 0)) now (fun j => g (j + 1))
  refine ⟨?_, ?_, ?_⟩
  · simp only [refreshLogs, List.filter_append]
    rw [List.filter_eq_self.mpr (fun a ha => by simp [hfresh a ha]),
      List.filter_filter]
    rw [List.filter_eq_nil_iff.mpr (fun a _ => by simp), List.append_nil]
  · simp only [refreshLogs, List.filter_append]
    rw [List.filter_eq_nil_iff.mpr (fun a ha => by simp [hfresh a ha]),
      List.filter_filter, List.nil_append]
    exact List.filter_congr (fun a _ => by simp)
  · intro e he
    simp only [refreshLogs, List.filter_append]
    rw [List.filter_eq_nil_iff.mpr
        (fun a ha => by simp [hfresh a ha]; exact fun h => he h.symm),
      List.filter_filter, List.nil_append]
    refine List.filter_congr (fun a _ => ?_)
    by_cases hae : a.environmentId = e
    · simp [hae, he]
    · simp [hae]

/-- Witness for C7: refreshing `env-A` on the two-environment fixture leaves
`env-B`'s single entry untouched. -/
theorem refreshLogs_replaces_batch_witness :
    ((refreshLogs sampleState "env-A" 0 (fun _ => 0)).logs.filter
        (fun l => l.environmentId = "env-B"))
      = sampleState.logs.filter (fun l => l.environmentId = "env-B") :=
  (refreshLogs_replaces_batch sampleState "env-A" 0 (fun _ => 0)).2.2 "env-B"
    (by decide)

/-! ## Reachability and the log-ordering invariant (C8) -/

/-- The mutation API exposed by `SandboxContext`, one constructor per
operation with its argument (random-driven operations carry their stream). -/
inductive SandboxOp where
  | addEnvironment (env : SandboxEnvironment)
  | updateEnvironment (env : SandboxEnvironment)
  | deleteEnvironment (id : String)
  | addApiKey (key : APIKey)
  | updateApiKey (key : APIKey)
  | deleteApiKey (id : String)
  | addWebhook (webhook : WebhookConfig)
  | updateWebhook (webhook : WebhookConfig)
  | deleteWebhook (id : String)
  | addLog (log : LogEntry)
  | refreshLogs (envId : String) (now : Nat) (g : Nat → Nat)
  | setSelectedEnvironmentId (id : Option String)

/-- Dispatch an operation to its store mutator. -/
def SandboxOp.apply : SandboxOp → SandboxState → SandboxState
  | .addEnvironment env, s => DevSandbox.addEnvironment s env
  | .updateEnvironment env, s => DevSandbox.updateEnvironment s env
  | .deleteEnvironment id, s => DevSandbox.deleteEnvironment s id
  | .addApiKey key, s => DevSandbox.addApiKey s key
  | .updateApiKey key, s => DevSandbox.updateApiKey s key
  | .deleteApiKey id, s => DevSandbox.deleteApiKey s id
  | .addWebhook webhook, s => DevSandbox.addWebhook s webhook
  | .updateWebhook webhook, s => DevSandbox.updateWebhook s webhook
  | .deleteWebhook id, s => DevSandbox.deleteWebhook s id
  | .addLog log, s => DevSandbox.addLog s log
  | .refreshLogs envId now g, s => DevSandbox.refreshLogs s envId now g
  | .setSelectedEnvironmentId id, s => DevSandbox.setSelectedEnvironmentId s id

/-- States reachable from the provider's initial state through the exposed
mutation API. -/
inductive Reachable : SandboxState → Prop
  | init (now : Nat) (g : Nat → Nat) : Reachable (initState now g)
  | step {s : SandboxState} (op : SandboxOp) :
      Reachable s → Reachable (op.apply s)

/-- Freshness side condition of the amended C8: `addLog` is given an entry
no older than every entry already recorded for its environment; every other
operation is unconditional. -/
def OpGuard : SandboxOp → SandboxState → Prop
  | .addLog log, s =>
      ∀ e ∈ s.logs, e.environmentId = log.environmentId →
        e.timestamp ≤ log.timestamp
  | _, _ => True

/-- States reachable when every `addLog` satisfies the freshness condition. -/
inductive GuardedReachable : SandboxState → Prop
  | init (now : Nat) (g : Nat → Nat) : GuardedReachable (initState now g)
  | step {s : SandboxState} (op : SandboxOp) :
      GuardedReachable s → OpGuard op s → GuardedReachable (op.apply s)

/-- The per-environment list materialized at read time (`envLogs` inside
`filteredLogs`: a filter of the store's log collection on the environment
id). -/
def ReadLogs (s : SandboxState) (environmentId : String) : List LogEntry :=
  s.logs.filter (fun log => log.environmentId = environmentId)

/-- Descending (newest-first) timestamp order. -/
def SortedNewestFirst (l : List LogEntry) : Prop := l.Pairwise newerFirst

/-- C8's invariant: every environment's read-time list is newest-first. -/
def LogsInvariant (s : SandboxState) : Prop :=
  ∀ environmentId : String, SortedNewestFirst (ReadLogs s environmentId)

/-- Auxiliary whole-collection invariant: any two entries of the same
environment appear newest-first. -/
def byEnvRel (a b : LogEntry) : Prop :=
  a.environmentId = b.environmentId → b.timestamp ≤ a.timestamp

theorem readLogs_sorted_of_pairwise {l : List LogEntry}
    (h : l.Pairwise byEnvRel) (eid : String) :
    (l.filter (fun x => x.environmentId = eid)).Pairwise newerFirst := by
  have hsub : (l.filter (fun x => x.environmentId = eid)).Pairwise byEnvRel :=
    List.Pairwise.sublist (List.filter_sublist l) h
  refine List.Pairwise.imp_of_mem ?_ hsub
  intro a b ha hb hr
  have ha' : a.environmentId = eid := by
    simpa using (List.mem_filter.mp ha).2
  have hb' : b.environmentId = eid := by
    simpa using (List.mem_filter.mp hb).2
  exact hr (ha'.trans hb'.symm)

/-- A synthesized batch is sorted newest-first (the generator sorts). -/
theorem generateMockLogs_sorted (envId : String) (count : Nat) (now : Nat)
    (g : Nat → Nat) :
    (generateMockLogs envId count now g).Pairwise newerFirst :=
  List.sorted_insertionSort newerFirst _

theorem generateMockLogs_pairwiseByEnv (envId : String) (count : Nat)
    (now : Nat) (g : Nat → Nat) :
    (generateMockLogs envId count now g).Pairwise byEnvRel :=
  (generateMockLogs_sorted envId count now g).imp
    (fun h => fun (_ : _ = _) => h)

/-- The initial log collection satisfies the whole-collection invariant:
each environment's batch is internally sorted, and distinct batches belong
to distinct environments. -/
theorem initLogs_pairwiseByEnv (now : Nat) (g : Nat → Nat) :
    (initLogs now g).Pairwise byEnvRel := by
  unfold initLogs
  rw [List.pairwise_flatten]
  constructor
  · intro batch hb
    obtain ⟨p, _, rfl⟩ := List.mem_map.mp hb
    exact generateMockLogs_pairwiseByEnv ..
  · rw [List.pairwise_map]
    have hids : MOCK_ENVIRONMENTS.enum.Pairwise
        (fun p q => p.2.id ≠ q.2.id) := by decide
    refine List.Pairwise.imp_of_mem ?_ hids
    intro p q _ _ hne x hx y hy heq
    exfalso
    apply hne
    rw [← generateMockLogs_environmentId _ _ _ _ x hx,
      ← generateMockLogs_environmentId _ _ _ _ y hy]
    exact heq

/-- Every operation preserves the whole-collection invariant, `addLog`
under its freshness condition. -/
theorem pairwiseByEnv_apply (op : SandboxOp) (s : SandboxState)
    (h : s.logs.Pairwise byEnvRel) (hg : OpGuard op s) :
    (op.apply s).logs.Pairwise byEnvRel := by
  cases op with
  | deleteEnvironment id =>
    exact List.Pairwise.sublist (List.filter_sublist _) h
  | addLog log =>
    exact List.Pairwise.cons (fun b hb heq => hg b hb heq.symm) h
  | refreshLogs envId now g =>
    show (generateMockLogs envId _ now _ ++
      s.logs.filter (fun l => l.environmentId ≠ envId)).Pairwise byEnvRel
    rw [List.pairwise_append]
    refine ⟨generateMockLogs_pairwiseByEnv ..,
      List.Pairwise.sublist (List.filter_sublist _) h, ?_⟩
    intro a ha b hb heq
    exfalso
    have hbe : ¬ b.environmentId = envId := by
      simpa using (List.mem_filter.mp hb).2
    exact hbe (heq ▸ generateMockLogs_environmentId _ _ _ _ a ha)
  | addEnvironment env => exact h
  | updateEnvironment env => exact h
  | addApiKey key => exact h
  | updateApiKey key => exact h
  | deleteApiKey id => exact h
  | addWebhook webhook => exact h
  | updateWebhook webhook => exact h
  | deleteWebhook id => exact h
  | setSelectedEnvironmentId id => exact h

theorem guardedReachable_pairwiseByEnv (s : SandboxState)
    (h : GuardedReachable s) : s.logs.Pairwise byEnvRel := by
  induction h with
  | init now g => exact initLogs_pairwiseByEnv now g
  | step op _ hguard ih => exact pairwiseByEnv_apply op _ ih hguard

/-- Every log entry of the initial collection belongs to one of the seven
mock environments. -/
theorem initLogs_environmentId_mem (now : Nat) (g : Nat → Nat) :
    ∀ l ∈ initLogs now g,
      l.environmentId ∈ MOCK_ENVIRONMENTS.map (fun env => env.id) := by
  intro l hl
  unfold initLogs at hl
  obtain ⟨batch, hb, hlb⟩ := List.mem_flatten.mp hl
  obtain ⟨p, hp, rfl⟩ := List.mem_map.mp hb
  have hpm : p.2 ∈ MOCK_ENVIRONMENTS := by
    have hmm : p.2 ∈ MOCK_ENVIRONMENTS.enum.map Prod.snd :=
      List.mem_map_of_mem Prod.snd hp
    rwa [List.enum_map_snd] at hmm
  rw [generateMockLogs_environmentId _ _ _ _ l hlb]
  exact List.mem_map_of_mem _ hpm

def gZero : Nat → Nat := fun _ => 0

def logNew : LogEntry := { logA with id := "log-new", timestamp := 10 }

def logOld : LogEntry := { logA with id := "log-old", timestamp := 5 }

/-- A state reached by adding a fresh environment and then two log entries,
the second older than the first: `addLog` prepends unconditionally. -/
def unsortedState : SandboxState :=
  (SandboxOp.addLog logOld).apply ((SandboxOp.addLog logNew).apply
    ((SandboxOp.addEnvironment envA).apply (initState 0 gZero)))

/-- C8 as stated is false: newest-first read order is not an invariant of
every store operation — `addLog` prepends an arbitrary entry, so a reachable
state materializes `env-A`'s list with an older entry first. -/
theorem readLogs_order_not_invariant :
    ¬ (∀ s : SandboxState, Reachable s → LogsInvariant s) := by
  intro h
  have hreach : Reachable unsortedState :=
    Reachable.step _ (Reachable.step _ (Reachable.step _ (Reachable.init 0 gZero)))
  have hsorted := h unsortedState hreach "env-A"
  have hnil : (initLogs 0 gZero).filter
      (fun l => l.environmentId = "env-A") = [] := by
    rw [List.filter_eq_nil_iff]
    intro a ha
    have hmem := initLogs_environmentId_mem 0 gZero a ha
    simp only [decide_eq_true_eq]
    intro hZ
    rw [hZ] at hmem
    revert hmem
    decide
  have hlogs : unsortedState.logs = logOld :: logNew :: initLogs 0 gZero := rfl
  have hread : ReadLogs unsortedState "env-A" = [logOld, logNew] := by
    unfold ReadLogs
    rw [hlogs, List.filter_cons_of_pos (by decide),
      List.filter_cons_of_pos (by decide), hnil]
  rw [hread] at hsorted
  have hle : logNew.timestamp ≤ logOld.timestamp :=
    (List.pairwise_cons.mp hsorted).1 logNew (by simp)
  exact absurd hle (by decide)

/-- C8 (amended): in every state reachable while `addLog` only receives
entries at least as new as the existing entries of their environment, each
environment's read-time list is in descending timestamp order; the
invariant holds of the initial synthetic collection and is preserved by
every store operation, `addLog` exactly under that freshness condition. -/
theorem readLogs_sorted_invariant (s : SandboxState)
    (h : GuardedReachable s) : LogsInvariant s :=
  fun eid =>
    readLogs_sorted_of_pairwise (guardedReachable_pairwiseByEnv s h) eid

/-- Witness for the amended C8 at the concrete initial state. -/
theorem readLogs_sorted_invariant_witness :
    LogsInvariant (initState 0 gZero) :=
  readLogs_sorted_invariant (initState 0 gZero)
    (GuardedReachable.init 0 gZero)

end DevSandbox
